import Mathlib

/-!
Shallow embedding of the Seta interpreter core (`src/Seta/SetaCore.py`).

Modelling conventions:
* Python numeric values (`int`/`float`) are modelled as exact rationals `ℚ`;
  the `int`/`float` distinction is not carried (no claim depends on it).
* Python `None` is modelled by `Option`: a runtime value that may be `None`
  has type `Option Value` (`OpVal`).
* A Python statement that raises a host `TypeError` out of a handler is
  modelled by `Except`: the dispatcher catches it and reports
  `ArgumentException`, exactly as the `try/except TypeError` blocks in
  `SetaRuntime.run` do.
* The `ErrorReporter` (`SetaRuntime.error`) is modelled by appending the
  exception class name to an `errors` log and setting the run status to
  `error`; diagnostic message text, line numbers and terminal colour are
  not modelled.
* `Seta.requireReal` resolves literals with Python `eval`; the model uses a
  narrow numeric-literal recognizer (optional sign, decimal digits with an
  optional fractional part).  The spec (§9) flags `eval`'s extra power as
  unintended; every theorem below quantifies over resolution through
  `resolveOperand`, so only this literal fragment is exercised.
-/

namespace Seta

/-- Runtime value: a Python number (modelled as `ℚ`) or a string. -/
inductive Value where
  | num (q : ℚ)
  | str (s : String)
deriving DecidableEq, Repr

/-- A resolved operand as Python sees it: `none` models the Python value
`None` (an undefined variable's value). -/
abbrev OpVal := Option Value

/-- Variable kind codes `VARIABLE_NUMERIC` / `VARIABLE_STRING_CONST`. -/
inductive VKind where
  | numeric
  | stringConst
deriving DecidableEq, Repr

/-- The `Variable` class: a kind fixed at creation and an optional value
(`None` until the first successful `set`). The name is the key of the
namespace map and is not repeated here. -/
structure SVariable where
  type : VKind
  value : Option Value
deriving DecidableEq, Repr

/-- Runtime status codes (`RUNTIME_STATUS_*`). -/
inductive RStatus where
  | running
  | preparing
  | quited
  | error
deriving DecidableEq, Repr

/-- The program pointer `SetaRuntime.ptr`: initially the bound method
`NullPointerTraceback`, later an object looked up in a package pool by
`com_load`.  Every object in a pool is a callable builtin. -/
inductive Ptr where
  | nullTraceback
  | loaded (pkg obj : String)
deriving DecidableEq, Repr

/-- Namespace: the `SetaRuntime.namespace` dict, modelled as an association
list with unique keys (first match wins, updates replace in place). -/
abbrev NS := List (String × SVariable)

/-- Dict lookup `namespace.get(name, None)` (`NamespaceSearch`). -/
def nsLookup : NS → String → Option SVariable
  | [], _ => none
  | (m, v) :: rest, n => if m = n then some v else nsLookup rest n

/-- Dict assignment `namespace[name] = var` (`NamespaceInput`, and in-place
mutation of a `Variable` already held in the dict). -/
def nsUpdate : NS → String → SVariable → NS
  | [], n, v => [(n, v)]
  | (m, w) :: rest, n, v =>
      if m = n then (n, v) :: rest else (m, w) :: nsUpdate rest n v

/-- The mutable interpreter state of `SetaRuntime`, plus an `errors` log
recording the class names of the diagnostics reported so far. -/
structure RState where
  ns : NS
  ams : Value
  ifs : Nat
  ptr : Ptr
  status : RStatus
  errors : List String
deriving DecidableEq, Repr

/-- The `SetaRuntime.error` sink: records the diagnostic's class name and
sets the run status to `error` (`RUNTIME_STATUS_ERROR`). -/
def reportError (s : RState) (cls : String) : RState :=
  { s with status := RStatus.error, errors := s.errors ++ [cls] }

/-- State of a fresh `SetaRuntime`: empty namespace, `ams = 0`, `ifs = 0`,
pointer at the null-pointer handler, status `RUNTIME_STATUS_RUNNING`. -/
def initState : RState :=
  { ns := [], ams := Value.num 0, ifs := 0, ptr := Ptr.nullTraceback,
    status := RStatus.running, errors := [] }

/-- Character test of `Seta.requireIdentifier`'s loop: ASCII letter, digit,
underscore or hash. -/
def identChar (c : Char) : Bool :=
  (decide ('a' ≤ c) && decide (c ≤ 'z')) ||
  (decide ('A' ≤ c) && decide (c ≤ 'Z')) ||
  c.isDigit || c = '_' || c = '#'

/-- The static method `Seta.requireIdentifier`: non-empty, every character
allowed by `identChar`, first character neither a digit nor `#`. -/
def requireIdentifier (i : String) : Bool :=
  match i.data with
  | [] => false
  | c :: cs => (c :: cs).all identChar && !(c.isDigit || c = '#')

/-- Numeric value of a digit list, most significant first. -/
def natOfDigits (cs : List Char) : Nat :=
  cs.foldl (fun a c => a * 10 + (c.toNat - 48)) 0

/-- Python `s.split(sep)` for a one-character separator: splits on every
occurrence, keeping empty pieces (`"".split(" ") == [""]`). -/
def splitChar (sep : Char) : List Char → List (List Char)
  | [] => [[]]
  | c :: cs =>
      match splitChar sep cs with
      | [] => if c = sep then [[], []] else [[c]]
      | g :: gs => if c = sep then [] :: g :: gs else (c :: g) :: gs

/-- String version of `splitChar`. -/
def splitStr (sep : Char) (s : String) : List String :=
  (splitChar sep s.data).map (fun cs => String.mk cs)

/-- Python `line[:-1]`: the string without its final character. -/
def dropLastChar (s : String) : String :=
  String.mk s.data.dropLast

/-- Python `' '.join(parts)`. -/
def joinSp : List String → String
  | [] => ""
  | [x] => x
  | x :: y :: rest => x ++ " " ++ joinSp (y :: rest)

/-- ASCII lower-casing of one character (Python `str.lower` on the
mnemonic tokens, which are ASCII). -/
def lowerChar (c : Char) : Char :=
  if 'A' ≤ c ∧ c ≤ 'Z' then Char.ofNat (c.toNat + 32) else c

/-- Python `s.lower()` on an ASCII string. -/
def lowerStr (s : String) : String :=
  String.mk (s.data.map lowerChar)

/-- Exact rational addition, written through `mkRat` so that it evaluates
inside the kernel (`Rat.add` is irreducible); proved equal to `+` in
`qadd_eq` below. -/
def qadd (a b : ℚ) : ℚ :=
  mkRat (a.num * b.den + b.num * a.den) (a.den * b.den)

/-- Exact rational subtraction through `mkRat`; equals `-` (`qsub_eq`). -/
def qsub (a b : ℚ) : ℚ :=
  mkRat (a.num * b.den - b.num * a.den) (a.den * b.den)

/-- Exact rational multiplication through `mkRat`; equals `*`
(`qmul_eq`). -/
def qmul (a b : ℚ) : ℚ :=
  mkRat (a.num * b.num) (a.den * b.den)

/-- Exact rational division through `Rat.divInt`; equals `/`
(`qdiv_eq`). -/
def qdiv (a b : ℚ) : ℚ :=
  Rat.divInt (a.num * b.den) (a.den * b.num)

/-- Helper for `parseNum`: an unsigned decimal literal — `digits`,
`digits.digits`, `digits.` or `.digits`. -/
def parseUnsigned (body : String) : Option ℚ :=
  match splitChar '.' body.data with
  | [ip] =>
      if ip ≠ [] ∧ ip.all Char.isDigit then
        some (mkRat (natOfDigits ip) 1)
      else none
  | [ip, fp] =>
      if (ip ≠ [] ∨ fp ≠ []) ∧ ip.all Char.isDigit ∧ fp.all Char.isDigit then
        some (mkRat (natOfDigits ip * 10 ^ fp.length + natOfDigits fp)
          (10 ^ fp.length))
      else none
  | _ => none

/-- Model of `Seta.requireReal`, restricted to the numeric-literal fragment
(optional minus sign, decimal integer or decimal fraction).  The source
resolves the token with Python `eval` and keeps the result only when it is
an `int` or `float`; spec §9 records that anything beyond a numeric
literal is unintended capability, and no theorem exercises it. -/
def parseNum (tok : String) : Option ℚ :=
  match tok.data with
  | '-' :: rest => (parseUnsigned (String.mk rest)).map Neg.neg
  | _ => parseUnsigned tok

/-- Arithmetic mnemonics accepted by `com_calc` (`OPERATION_*`). -/
inductive OpKind where
  | add
  | sub
  | mul
  | div
  | power
deriving DecidableEq, Repr

/-- The operation-name dict lookup at the top of `com_calc`
(case-sensitive, exactly the five `OPERATION_*` strings). -/
def opOfString (s : String) : Option OpKind :=
  if s = "add" then some OpKind.add
  else if s = "sub" then some OpKind.sub
  else if s = "mul" then some OpKind.mul
  else if s = "div" then some OpKind.div
  else if s = "power" then some OpKind.power
  else none

/-- Python power `a ** b` on the modelled numeric domain: exact for integer
exponents (`zpow`).  A fractional exponent produces a Python float or
complex outside the exact fragment; the model returns `0` there and no
theorem depends on that branch (both `com_calc` and `Operation.power`
reject the only exercised edge case `0 ** 0` before computing). -/
def pyPow (a b : ℚ) : ℚ :=
  if b.den = 1 then a ^ b.num else 0

/-- The raw Python operator applied by `com_calc` (`operator.add`,
`operator.sub`, `operator.mul`, `operator.truediv`, `operator.pow`) on two
resolved values.  `Except.error ()` models a host `TypeError` escaping the
handler.  `add` on two strings is Python string concatenation.  String
repetition (`str * int`) is not representable because the model does not
carry the `int`/`float` distinction; that combination is modelled as the
host error and no theorem exercises it. -/
def pyArith (op : OpKind) (v1 v2 : OpVal) : Except Unit Value :=
  match op, v1, v2 with
  | OpKind.add, some (Value.num a), some (Value.num b) => Except.ok (Value.num (qadd a b))
  | OpKind.add, some (Value.str a), some (Value.str b) => Except.ok (Value.str (a ++ b))
  | OpKind.sub, some (Value.num a), some (Value.num b) => Except.ok (Value.num (qsub a b))
  | OpKind.mul, some (Value.num a), some (Value.num b) => Except.ok (Value.num (qmul a b))
  | OpKind.div, some (Value.num a), some (Value.num b) => Except.ok (Value.num (qdiv a b))
  | OpKind.power, some (Value.num a), some (Value.num b) => Except.ok (Value.num (pyPow a b))
  | _, _, _ => Except.error ()

/-- Python comparison `v == 0` on a resolved value (used by the guards in
`com_calc`): true exactly for the number `0`; `None == 0` and
`"..." == 0` are `False` in Python. -/
def isZeroVal (v : OpVal) : Bool :=
  match v with
  | some (Value.num q) => q = 0
  | _ => false

/-- Operand resolution shared by `com_calc` and `com_if`: literal-numeric
parse first, then the `@AMS` register alias (checked after the parse, as
in the source; `@AMS` itself never parses as a literal), then a namespace
lookup unwrapping to the variable's value.  `none` means the name is
undeclared (`VariableException` at the call sites). -/
def resolveOperand (s : RState) (tok : String) : Option OpVal :=
  let v0 : OpVal := (parseNum tok).map Value.num
  let v1 : OpVal := if tok = "@AMS" then some s.ams else v0
  match v1 with
  | some v => some (some v)
  | none => (nsLookup s.ns tok).map (fun v => v.value)

/-- Comparison mnemonics accepted by `com_if` (`COMPARISON_*`). -/
inductive CmpKind where
  | above
  | below
  | equal
  | notAbove
  | notBelow
  | notEqual
deriving DecidableEq, Repr

/-- The comparison-operator dict lookup in `com_if`. -/
def cmpOfString (s : String) : Option CmpKind :=
  if s = ">" then some CmpKind.above
  else if s = "<" then some CmpKind.below
  else if s = "=" then some CmpKind.equal
  else if s = "<=" then some CmpKind.notAbove
  else if s = ">=" then some CmpKind.notBelow
  else if s = "!=" then some CmpKind.notEqual
  else none

/-- Modelled from the spec: the comparison functions live in the
`seta_operator` module, which is absent from the sources (only
`SetaCore.py` imports it).  Spec §4.3: comparison "compares raw resolved
values directly (no explicit numeric type check)" and "comparison failures
(incomparable types) surface as `ComparisonException`" — following Python
semantics, equality between values of different types is `False` (never an
error) while an order comparison between different types raises, which
`com_if` catches and reports as `ComparisonException`
(`Except.error ()` here). -/
def pyCompare (c : CmpKind) (v1 v2 : OpVal) : Except Unit Bool :=
  match c with
  | CmpKind.equal => Except.ok (v1 = v2)
  | CmpKind.notEqual => Except.ok (v1 ≠ v2)
  | _ =>
    match v1, v2 with
    | some (Value.num a), some (Value.num b) =>
        match c with
        | CmpKind.above => Except.ok (a > b)
        | CmpKind.below => Except.ok (a < b)
        | CmpKind.notAbove => Except.ok (a ≤ b)
        | CmpKind.notBelow => Except.ok (a ≥ b)
        | _ => Except.error ()
    | some (Value.str a), some (Value.str b) =>
        match c with
        | CmpKind.above => Except.ok (b < a)
        | CmpKind.below => Except.ok (a < b)
        | CmpKind.notAbove => Except.ok (¬ b < a)
        | CmpKind.notBelow => Except.ok (¬ a < b)
        | _ => Except.error ()
    | _, _ => Except.error ()

/-- Category test of `Variable.set`: a string value needs a
`STRING_CONST` variable, any other (numeric) value needs a `NUMERIC`
variable. -/
def setOK (k : VKind) (v : Value) : Bool :=
  match v with
  | Value.str _ => k = VKind.stringConst
  | Value.num _ => k = VKind.numeric

/-- `Variable.set` on the variable currently bound to `name`: on a
category match the binding's value is updated in place; on a mismatch a
`ValueException` is reported and the binding is left unchanged. -/
def varSet (s : RState) (name : String) (v : SVariable) (val : Value) : RState :=
  if setOK v.type val then
    { s with ns := nsUpdate s.ns name { v with value := some val } }
  else reportError s "ValueException"

/-- The handler `SetaRuntime.com_calc`.  Order of checks as in the source:
operation lookup, operand resolution (left then right), the division-by-
zero guard, the `0 ** 0` guard (Python `var1 == var2 == 0` chains two
comparisons, which hold exactly when both resolved values are the number
`0`), the result-identifier check; then the raw operator is applied, the
result written to `@AMS`, and written to the result variable (created as
`NUMERIC` and inserted into the namespace before `Variable.set` runs, so a
failing `set` leaves an undefined numeric variable behind).
`Except.error s` models a host `TypeError` escaping the handler with the
side effects accumulated so far. -/
def com_calc (s : RState) (operation arg1 arg2 res : String) : Except RState RState :=
  match opOfString operation with
  | none => Except.ok (reportError s "ArgumentException")
  | some op =>
    match resolveOperand s arg1 with
    | none => Except.ok (reportError s "VariableException")
    | some v1 =>
      match resolveOperand s arg2 with
      | none => Except.ok (reportError s "VariableException")
      | some v2 =>
        if op = OpKind.div ∧ isZeroVal v2 then
          Except.ok (reportError s "MathException")
        else if op = OpKind.power ∧ isZeroVal v1 ∧ isZeroVal v2 then
          Except.ok (reportError s "MathException")
        else if ¬ requireIdentifier res then
          Except.ok (reportError s "ArgumentException")
        else
          match pyArith op v1 v2 with
          | Except.error _ => Except.error s
          | Except.ok r =>
            let s1 := { s with ams := r }
            match nsLookup s1.ns res with
            | some var => Except.ok (varSet s1 res var r)
            | none =>
                let var : SVariable := { type := VKind.numeric, value := none }
                let s2 := { s1 with ns := nsUpdate s1.ns res var }
                Except.ok (varSet s2 res var r)

/-- The handler `SetaRuntime.com_set`: identifier check first; for kind
`numeric` a literal-numeric parse (failure: `TypeException`), then the
extra-tokens arity check, then a fresh `NUMERIC` variable is created, set
and installed; for kind `cstring` a fresh `STRING_CONST` variable holding
the space-joined tokens is installed; any other kind token reports
`ArgumentException`. -/
def com_set (s : RState) (vType name value : String) (texts : List String) : RState :=
  if ¬ requireIdentifier name then reportError s "ArgumentException"
  else if vType = "numeric" then
    match parseNum value with
    | none => reportError s "TypeException"
    | some q =>
        if texts ≠ [] then reportError s "ArgumentException"
        else
          let var : SVariable := { type := VKind.numeric, value := some (Value.num q) }
          { s with ns := nsUpdate s.ns name var }
  else if vType = "cstring" then
    let var : SVariable :=
      { type := VKind.stringConst,
        value := some (Value.str (joinSp (value :: texts))) }
    { s with ns := nsUpdate s.ns name var }
  else reportError s "ArgumentException"

/-- The handler `SetaRuntime.com_if`: resolve both operands
(`VariableException` on an undeclared name), look up the comparison
operator (`OperatorException` if unknown), evaluate it (any exception is
caught and reported as `ComparisonException`); a false condition opens a
skipped block by setting `ifs := 1`. -/
def com_if (s : RState) (arg1 cmp arg2 : String) : RState :=
  match resolveOperand s arg1 with
  | none => reportError s "VariableException"
  | some v1 =>
    match resolveOperand s arg2 with
    | none => reportError s "VariableException"
    | some v2 =>
      match cmpOfString cmp with
      | none => reportError s "OperatorException"
      | some c =>
        match pyCompare c v1 v2 with
        | Except.error _ => reportError s "ComparisonException"
        | Except.ok res => if res then s else { s with ifs := 1 }

/-- The handler `SetaRuntime.com_endif`:
`self.ifs = self.ifs - 1 if self.ifs else 0`, i.e. decrement with floor
`0` (`Nat` subtraction). -/
def com_endif (s : RState) : RState :=
  { s with ifs := s.ifs - 1 }

/-- The objects pre-registered in `BuiltinsPackage.__init__`. -/
def builtinsPool : List String :=
  ["display", "ftc", "wrap", "nInput", "breakpoint"]

/-- The package registry `SetaRuntime.packages`: only `builtins` exists
and no instruction ever registers another package, so the registry is
constant over a run. -/
def packagePool (name : String) : Option (List String) :=
  if name = "builtins" then some builtinsPool else none

/-- Effective `(package, identifier)` pair of `com_load`: with a single
token the package defaults to `builtins`. -/
def loadTarget (package : String) (identifier : Option String) : String × String :=
  match identifier with
  | none => ("builtins", package)
  | some i => (package, i)

/-- The handler `SetaRuntime.com_load`: resolve the package
(`PackageException` if unknown) then the object in its pool
(`PackageException` if absent); only on success is the pointer register
rebound. -/
def com_load (s : RState) (package : String) (identifier : Option String) : RState :=
  let t := loadTarget package identifier
  match packagePool t.1 with
  | none => reportError s "PackageException"
  | some pool =>
      if t.2 ∈ pool then { s with ptr := Ptr.loaded t.1 t.2 }
      else reportError s "PackageException"

/-- The handler `SetaRuntime.com_call`.  The pointer register is never the
Python `None` in the model (it starts at `NullPointerTraceback` and
`com_load` only rebinds it to a pool object), and both possible targets
are callable, so the handler invokes `self.ptr(*args)`:
* `NullPointerTraceback` takes no arguments — with an empty argument list
  it reports `NullPointerException`; with arguments the call raises a host
  `TypeError` (`Except.error s`), which the dispatcher reports as
  `ArgumentException`;
* a loaded builtin is an external collaborator (spec §1 treats the builtin
  routines as out-of-scope thin I/O wrappers specified only through their
  interface); its invocation is modelled as an uninterpreted successful
  external call, and no theorem depends on its body. -/
def com_call (s : RState) (args : List String) : Except RState RState :=
  match s.ptr with
  | Ptr.nullTraceback =>
      match args with
      | [] => Except.ok (reportError s "NullPointerException")
      | _ :: _ => Except.error s
  | Ptr.loaded _ _ => Except.ok s

/-- An instruction record as produced by
`SetaStringOperationCode.instruction`: mnemonic and argument tokens. -/
abbrev Instr := String × List String

/-- One dispatch cycle of `SetaRuntime.run` on the current instruction.
`endif` is handled before the skip check, so it executes even while
skipping; while `ifs > 0` an `if` only raises the depth and every other
mnemonic is consumed without executing.  Each handler call sits in a
`try/except TypeError` block: a wrong argument count — or a `TypeError`
escaping the handler body — is reported as `ArgumentException`.
Mnemonic matching lowers the token first (case-insensitive dispatch). -/
def step (s : RState) (instr : Instr) : RState :=
  let com := lowerStr instr.1
  let args := instr.2
  if com = "endif" then
    match args with
    | [] => com_endif s
    | _ :: _ => reportError s "ArgumentException"
  else if s.ifs ≠ 0 then
    if com = "if" then { s with ifs := s.ifs + 1 } else s
  else if com = "set" then
    match args with
    | a :: b :: c :: rest => com_set s a b c rest
    | _ => reportError s "ArgumentException"
  else if com = "calc" then
    match args with
    | [a, b, c, d] =>
        match com_calc s a b c d with
        | Except.ok s1 => s1
        | Except.error s1 => reportError s1 "ArgumentException"
    | _ => reportError s "ArgumentException"
  else if com = "load" then
    match args with
    | [p] => com_load s p none
    | [p, i] => com_load s p (some i)
    | _ => reportError s "ArgumentException"
  else if com = "emp" then
    match args with
    | [] => s
    | _ :: _ => reportError s "ArgumentException"
  else if com = "if" then
    match args with
    | [a, c, b] => com_if s a c b
    | _ => reportError s "ArgumentException"
  else if com = "call" then
    match com_call s args with
    | Except.ok s1 => s1
    | Except.error s1 => reportError s1 "ArgumentException"
  else reportError s "UnsupportedOperationException"

/-- The loop of `SetaRuntime.run` over the remaining instruction stream.
Top of every cycle: a non-`RUNNING` status exits immediately; at
End-Of-Stream an open if-block (`ifs ≠ 0`) reports `BlockException`
before the loop terminates; otherwise one instruction is dispatched. -/
def runLoop (s : RState) : List Instr → RState
  | [] =>
      if s.status ≠ RStatus.running then s
      else if s.ifs ≠ 0 then reportError s "BlockException"
      else s
  | i :: rest =>
      if s.status ≠ RStatus.running then s
      else runLoop (step s i) rest

/-- Result of an `Operation` helper: the possibly-updated state and the
Python return value — `Except.error ()` models a host `TypeError` raised
while operating on an undefined (`None`) value (the helpers are wrapped in
no handler), `Except.ok none` the explicit `return None` after a reported
failure, `Except.ok (some v)` a computed value. -/
abbrev HelperOut := RState × Except Unit (Option Value)

/-- The `SetaRuntime.Operation` helper methods (`add`, `sub`, `mul`,
`div`, `power`), which — unlike `com_calc` — type-guard their operands:
either operand of non-`NUMERIC` kind reports `TypeException` and returns
`None`.  `div` then checks `arg2.value == 0` and `power` checks
`arg1.value == arg2.value == 0` (each reporting `MathException`), and the
value arithmetic is the raw Python operator on the stored values. -/
def opHelper (op : OpKind) (s : RState) (v1 v2 : SVariable) : HelperOut :=
  if v1.type ≠ VKind.numeric then (reportError s "TypeException", Except.ok none)
  else if v2.type ≠ VKind.numeric then (reportError s "TypeException", Except.ok none)
  else if op = OpKind.div ∧ isZeroVal v2.value then
    (reportError s "MathException", Except.ok none)
  else if op = OpKind.power ∧ isZeroVal v1.value ∧ isZeroVal v2.value then
    (reportError s "MathException", Except.ok none)
  else
    match pyArith op v1.value v2.value with
    | Except.error _ => (s, Except.error ())
    | Except.ok r => (s, Except.ok (some r))

/-- The header precheck of `SetaStringOperationCode` over the `readlines`
output: result code and the stream pointer afterwards.  Codes: `0` pass,
`1` wrong flag, `2` non-numeric version, `3` version above `Seta.version`
(`1.0`), `4` wrong token count, `5` empty input.  The first line, when
present, is consumed (pointer `1`); on an empty file the pointer stays at
`0`.  The line is stripped of its final character and split on single
spaces, as in the source. -/
def precheck (text : List String) : Nat × Nat :=
  match text with
  | [] => (5, 0)
  | line1 :: _ =>
      if line1 = "" then (5, 1)
      else
        match splitStr ' ' (dropLastChar line1) with
        | [flag, version] =>
            if flag ≠ "SETA-SOC" then (1, 1)
            else
              match parseNum version with
              | none => (2, 1)
              | some v => if v > 1 then (3, 1) else (0, 1)
        | _ => (4, 1)

/-- The `SetaStringOperationCode` stream after construction: the
`readlines` output and the forward-only pointer. -/
structure SOCStream where
  text : List String
  pointer : Nat
deriving DecidableEq, Repr

/-- `SetaStringOperationCode.__init__`: run the precheck (consuming the
header line) and, on a non-zero code, report exactly one
`PrecheckException` diagnostic; the stream is constructed either way. -/
def mkSOC (text : List String) (s : RState) : SOCStream × RState :=
  let pc := precheck text
  let s1 := if pc.1 ≠ 0 then reportError s "PrecheckException" else s
  ({ text := text, pointer := pc.2 }, s1)

/-- `SetaStringOperationCode.instruction` on one raw line: `none` is the
End-Of-Stream marker (also produced by a falsy line), a line holding only
a newline is the no-op `emp`, otherwise the line minus its final
character is split on single spaces into mnemonic and argument tokens. -/
def instrOfLine (l : String) : Option Instr :=
  if l = "" then none
  else if l = "\n" ∨ l = "\n\r" then some ("emp", [])
  else
    match splitStr ' ' (dropLastChar l) with
    | [] => some ("", [])
    | m :: rest => some (m, rest)

/-- The instruction sequence the runtime pulls from the stream: one
instruction per line from the pointer on, ending at the first
End-Of-Stream marker. -/
def instrsFrom : List String → List Instr
  | [] => []
  | l :: rest =>
      match instrOfLine l with
      | none => []
      | some i => i :: instrsFrom rest

/-- A complete run of `Seta`: build the runtime, construct the stream
(reporting a `PrecheckException` when the header fails), then enter
`SetaRuntime.run` on the instructions after the consumed header. -/
def runProgram (text : List String) : RState :=
  let pc := precheck text
  let s1 := if pc.1 ≠ 0 then reportError initState "PrecheckException" else initState
  runLoop s1 (instrsFrom (text.drop pc.2))

/-! ### Bridging lemmas for the kernel-computable rational operations -/

theorem qadd_eq (a b : ℚ) : qadd a b = a + b := by
  unfold qadd
  rw [Rat.mkRat_eq_divInt, Rat.divInt_eq_div]
  have had : ((a.den : ℚ)) ≠ 0 := by exact_mod_cast a.den_ne_zero
  have hbd : ((b.den : ℚ)) ≠ 0 := by exact_mod_cast b.den_ne_zero
  conv_rhs => rw [← Rat.num_div_den a, ← Rat.num_div_den b]
  push_cast
  field_simp

theorem qsub_eq (a b : ℚ) : qsub a b = a - b := by
  unfold qsub
  rw [Rat.mkRat_eq_divInt, Rat.divInt_eq_div]
  have had : ((a.den : ℚ)) ≠ 0 := by exact_mod_cast a.den_ne_zero
  have hbd : ((b.den : ℚ)) ≠ 0 := by exact_mod_cast b.den_ne_zero
  conv_rhs => rw [← Rat.num_div_den a, ← Rat.num_div_den b]
  push_cast
  field_simp
  ring

theorem qmul_eq (a b : ℚ) : qmul a b = a * b := by
  unfold qmul
  rw [Rat.mkRat_eq_divInt, Rat.divInt_eq_div]
  have had : ((a.den : ℚ)) ≠ 0 := by exact_mod_cast a.den_ne_zero
  have hbd : ((b.den : ℚ)) ≠ 0 := by exact_mod_cast b.den_ne_zero
  conv_rhs => rw [← Rat.num_div_den a, ← Rat.num_div_den b]
  push_cast
  field_simp

theorem qdiv_eq (a b : ℚ) : qdiv a b = a / b := by
  unfold qdiv
  rw [Rat.divInt_eq_div]
  rcases eq_or_ne b 0 with hb | hb
  · subst hb
    simp
  · have hbn : ((b.num : ℚ)) ≠ 0 := by exact_mod_cast Rat.num_ne_zero.mpr hb
    have had : ((a.den : ℚ)) ≠ 0 := by exact_mod_cast a.den_ne_zero
    have hbd : ((b.den : ℚ)) ≠ 0 := by exact_mod_cast b.den_ne_zero
    conv_rhs => rw [← Rat.num_div_den a, ← Rat.num_div_den b]
    push_cast
    field_simp

/-! ### Dispatch lemmas: one `run` cycle for each mnemonic shape -/

theorem step_endif_noargs (s : RState) (com : String)
    (hcom : lowerStr com = "endif") :
    step s (com, []) = { s with ifs := s.ifs - 1 } := by
  simp [step, hcom, com_endif]

theorem step_endif_args (s : RState) (com : String) (a : String)
    (args : List String) (hcom : lowerStr com = "endif") :
    step s (com, a :: args) = reportError s "ArgumentException" := by
  simp [step, hcom]

theorem step_skip_if (s : RState) (com : String) (args : List String)
    (hifs : s.ifs ≠ 0) (hcom : lowerStr com = "if") :
    step s (com, args) = { s with ifs := s.ifs + 1 } := by
  simp [step, hcom, hifs]

theorem step_skip_other (s : RState) (com : String) (args : List String)
    (hifs : s.ifs ≠ 0) (h1 : lowerStr com ≠ "endif")
    (h2 : lowerStr com ≠ "if") :
    step s (com, args) = s := by
  simp [step, h1, h2, hifs]

theorem step_calc4 (s : RState) (hifs : s.ifs = 0) (a b c d : String) :
    step s ("calc", [a, b, c, d]) =
      (match com_calc s a b c d with
       | Except.ok s1 => s1
       | Except.error s1 => reportError s1 "ArgumentException") := by
  have hc : lowerStr "calc" = "calc" := by decide
  simp [step, hc, hifs]

theorem step_call_args (s : RState) (hifs : s.ifs = 0) (args : List String) :
    step s ("call", args) =
      (match com_call s args with
       | Except.ok s1 => s1
       | Except.error s1 => reportError s1 "ArgumentException") := by
  have hc : lowerStr "call" = "call" := by decide
  simp [step, hc, hifs]

theorem step_set_args (s : RState) (hifs : s.ifs = 0) (a b c : String)
    (rest : List String) :
    step s ("set", a :: b :: c :: rest) = com_set s a b c rest := by
  have hc : lowerStr "set" = "set" := by decide
  simp [step, hc, hifs]

/-! ### Claim C9: identifier validation -/

/-- Claim C9 is falsified at the concrete input `#tmp_1`: the claim lists
`#tmp_1` among the accepted identifiers, but `Seta.requireIdentifier`
rejects every string whose first character is `#` (consistently with the
grammar stated in the very same claim), so `#tmp_1` is rejected. -/
theorem C9_counterexample : requireIdentifier "#tmp_1" = false := by decide

/-- Claim C9 (amended): identifier validation accepts `a_9` and rejects
`#tmp_1`, `9x`, the empty string and `a-b`; in general a string is
accepted iff it is non-empty, every character is an ASCII letter, digit,
underscore or `#`, and the first character is neither a digit nor `#`. -/
theorem C9_identifier_grammar :
    requireIdentifier "a_9" = true ∧
    requireIdentifier "#tmp_1" = false ∧
    requireIdentifier "9x" = false ∧
    requireIdentifier "" = false ∧
    requireIdentifier "a-b" = false ∧
    ∀ i : String, requireIdentifier i = true ↔
      (i.data ≠ [] ∧ (∀ c ∈ i.data, identChar c = true) ∧
        ∀ c ∈ i.data.take 1, c.isDigit = false ∧ c ≠ '#') := by
  refine ⟨by decide, by decide, by decide, by decide, by decide, ?_⟩
  intro i
  cases h : i.data with
  | nil => simp [requireIdentifier, h]
  | cons c cs =>
      simp only [requireIdentifier, h, List.take, Bool.and_eq_true,
        List.all_eq_true, Bool.not_eq_true', Bool.or_eq_false_iff,
        decide_eq_false_iff_not, List.mem_singleton, List.mem_cons,
        ne_eq, forall_eq]
      constructor
      · rintro ⟨hall, hd, hh⟩
        exact ⟨by simp, hall, fun d hd1 => by simp at hd1; simp [hd1, hd, hh]⟩
      · rintro ⟨-, hall, hfirst⟩
        have := hfirst c (by simp)
        exact ⟨hall, this.1, this.2⟩

/-- Witness for `C9_identifier_grammar` at the concrete string `zz`. -/
theorem C9_identifier_grammar_witness : requireIdentifier "zz" = true :=
  (C9_identifier_grammar.2.2.2.2.2 "zz").mpr (by decide)

/-! ### Claim C4: End-Of-Stream inside an open if-block -/

/-- Claim C4: whenever the dispatcher reaches End-Of-Stream in the running
state while `SkipDepth > 0` (an `if` block not closed by a matching
`endif`), it reports `BlockException` before terminating: the final state
carries the diagnostic and status `Error`, never a silent end. -/
theorem C4_eos_open_block (s : RState)
    (hrun : s.status = RStatus.running) (hifs : s.ifs ≠ 0) :
    runLoop s [] = reportError s "BlockException" ∧
    (runLoop s []).status = RStatus.error ∧
    "BlockException" ∈ (runLoop s []).errors := by
  have h1 : runLoop s [] = reportError s "BlockException" := by
    simp [runLoop, hrun, hifs]
  exact ⟨h1, by simp [h1, reportError], by simp [h1, reportError]⟩

/-- Witness for `C4_eos_open_block`: a run that ends after `if 1 > 0`
(depth 1, stream exhausted) reports `BlockException`. -/
theorem C4_eos_open_block_witness :
    runLoop { initState with ifs := 1 } [] =
      reportError { initState with ifs := 1 } "BlockException" ∧
    (runLoop { initState with ifs := 1 } []).status = RStatus.error ∧
    "BlockException" ∈ (runLoop { initState with ifs := 1 } []).errors :=
  C4_eos_open_block { initState with ifs := 1 } (by decide) (by decide)

/-! ### Claim C7: `call` before any `load` -/

/-- Claim C7 is falsified at a non-empty argument list: before any `load`
the pointer register holds the zero-argument handler
`NullPointerTraceback`, so `call foo` raises a host `TypeError` inside
`com_call` and the dispatcher reports `ArgumentException` — not the
`NullPointerException` the claim promises for every argument list. -/
theorem C7_counterexample :
    (step initState ("call", ["foo"])).errors = ["ArgumentException"] ∧
    "NullPointerException" ∉ (step initState ("call", ["foo"])).errors := by
  decide

/-- Claim C7 (amended): executing `call` before any `load` has succeeded
reports `NullPointerException` when the argument list is empty; with a
non-empty argument list the null-pointer handler rejects the arguments
(host `TypeError`) and the dispatcher reports `ArgumentException`
instead. -/
theorem C7_call_before_load (s : RState) (args : List String)
    (hptr : s.ptr = Ptr.nullTraceback) (hifs : s.ifs = 0) :
    step s ("call", []) = reportError s "NullPointerException" ∧
    (args ≠ [] → step s ("call", args) = reportError s "ArgumentException") := by
  constructor
  · rw [step_call_args s hifs]
    simp [com_call, hptr]
  · intro hargs
    rw [step_call_args s hifs]
    cases args with
    | nil => exact absurd rfl hargs
    | cons a rest => simp [com_call, hptr]

/-- Witness for `C7_call_before_load` on the fresh runtime state. -/
theorem C7_call_before_load_witness :
    step initState ("call", []) = reportError initState "NullPointerException" ∧
    (["foo"] ≠ ([] : List String) →
      step initState ("call", ["foo"]) = reportError initState "ArgumentException") :=
  C7_call_before_load initState ["foo"] (by decide) (by decide)

/-! ### Claim C10: a failed `load` leaves the pointer register unchanged -/

/-- Claim C10: when `com_load` fails with `PackageException` (unknown
package, or unknown object in the package), the pointer register is left
unchanged, so a subsequent `call` invokes exactly the target it would
have invoked before the failed `load` — in particular, from the initial
state it still invokes the null-pointer handler. -/
theorem C10_load_failure_preserves_ptr (s : RState) (package : String)
    (idOpt : Option String)
    (h : ∀ pool, packagePool (loadTarget package idOpt).1 = some pool →
          (loadTarget package idOpt).2 ∉ pool) :
    com_load s package idOpt = reportError s "PackageException" ∧
    (com_load s package idOpt).ptr = s.ptr ∧
    (s.ptr = Ptr.nullTraceback →
      com_call (com_load s package idOpt) [] =
        Except.ok (reportError (com_load s package idOpt) "NullPointerException")) := by
  have h1 : com_load s package idOpt = reportError s "PackageException" := by
    unfold com_load
    cases hp : packagePool (loadTarget package idOpt).1 with
    | none => simp [hp]
    | some pool => simp [hp, h pool hp]
  refine ⟨h1, by simp [h1, reportError], ?_⟩
  intro hptr
  simp [h1, com_call, reportError, hptr]

/-- Witness for `C10_load_failure_preserves_ptr`: `load nopkg x` on the
fresh state fails and keeps the pointer at the null-pointer handler. -/
theorem C10_load_failure_preserves_ptr_witness :
    com_load initState "nopkg" (some "x") = reportError initState "PackageException" ∧
    (com_load initState "nopkg" (some "x")).ptr = initState.ptr ∧
    (initState.ptr = Ptr.nullTraceback →
      com_call (com_load initState "nopkg" (some "x")) [] =
        Except.ok (reportError (com_load initState "nopkg" (some "x"))
          "NullPointerException")) :=
  C10_load_failure_preserves_ptr initState "nopkg" (some "x")
    (fun pool hp => by simp [packagePool, loadTarget] at hp)

/-! ### Claim C8: a mismatched `set` leaves the old binding intact -/

/-- Claim C8: after `set numeric x 5`, a second `set numeric x foo` fails
with `TypeException` (the literal `foo` is not numeric) before any
binding is touched, so `x` keeps its prior Numeric binding with value `5`
still readable; in general a full numeric `set` reports `TypeException`
and leaves the namespace unchanged when the literal does not parse, and
replaces the binding (for a valid name) exactly when it does. -/
theorem C8_set_kind_mismatch_preserves_binding :
    (nsLookup (step initState ("set", ["numeric", "x", "5"])).ns "x" =
        some ⟨VKind.numeric, some (Value.num 5)⟩ ∧
      (step (step initState ("set", ["numeric", "x", "5"]))
          ("set", ["numeric", "x", "foo"])).errors = ["TypeException"] ∧
      (step (step initState ("set", ["numeric", "x", "5"]))
          ("set", ["numeric", "x", "foo"])).status = RStatus.error ∧
      nsLookup (step (step initState ("set", ["numeric", "x", "5"]))
          ("set", ["numeric", "x", "foo"])).ns "x" =
        some ⟨VKind.numeric, some (Value.num 5)⟩) ∧
    (∀ s n v, requireIdentifier n = true → parseNum v = none →
      com_set s "numeric" n v [] = reportError s "TypeException") ∧
    (∀ s n v q, requireIdentifier n = true → parseNum v = some q →
      com_set s "numeric" n v [] =
        { s with ns := nsUpdate s.ns n ⟨VKind.numeric, some (Value.num q)⟩ }) := by
  refine ⟨by decide, ?_, ?_⟩
  · intro s n v hn hv
    simp [com_set, hn, hv]
  · intro s n v q hn hv
    simp [com_set, hn, hv]

/-- Witness for the general clauses of
`C8_set_kind_mismatch_preserves_binding` at concrete inputs. -/
theorem C8_set_kind_mismatch_witness :
    com_set initState "numeric" "y" "foo" [] =
      reportError initState "TypeException" :=
  C8_set_kind_mismatch_preserves_binding.2.1 initState "y" "foo"
    (by decide) (by decide)

/-! ### Claims C1 and C2: `calc` arithmetic -/

theorem nsLookup_nsUpdate_self (ns : NS) (n : String) (v : SVariable) :
    nsLookup (nsUpdate ns n v) n = some v := by
  induction ns with
  | nil => simp [nsUpdate, nsLookup]
  | cons hd tl ih =>
      obtain ⟨m, w⟩ := hd
      by_cases h : m = n
      · simp [nsUpdate, nsLookup, h]
      · simp [nsUpdate, nsLookup, h, ih]

/-- Resolution of a plain numeric literal token does not depend on the
state. -/
theorem resolveOperand_lit (s : RState) (tok : String) (q : ℚ)
    (h : parseNum tok = some q) (h2 : tok ≠ "@AMS") :
    resolveOperand s tok = some (some (Value.num q)) := by
  simp [resolveOperand, h, h2]

/-- Claim C1: in the Executing state, `calc div a b r` on operand tokens
resolving to numeric values `a` and `b` with `b ≠ 0` and a valid result
identifier `r` (absent, or currently bound to a Numeric variable) writes
the quotient `a / b` both into the variable `r` — created as Numeric when
absent, its kind preserved otherwise — and into the AccumulatedResult
register `@AMS`, reporting no diagnostic. -/
theorem C1_calc_div_writes_result_and_ams (s : RState) (t1 t2 r : String)
    (a b : ℚ) (hifs : s.ifs = 0)
    (h1 : resolveOperand s t1 = some (some (Value.num a)))
    (h2 : resolveOperand s t2 = some (some (Value.num b)))
    (hb : b ≠ 0) (hr : requireIdentifier r = true)
    (hkind : ∀ v, nsLookup s.ns r = some v → v.type = VKind.numeric) :
    nsLookup (step s ("calc", ["div", t1, t2, r])).ns r =
      some ⟨VKind.numeric, some (Value.num (a / b))⟩ ∧
    (step s ("calc", ["div", t1, t2, r])).ams = Value.num (a / b) ∧
    (step s ("calc", ["div", t1, t2, r])).status = s.status ∧
    (step s ("calc", ["div", t1, t2, r])).errors = s.errors := by
  rw [step_calc4 s hifs]
  have hop : opOfString "div" = some OpKind.div := by decide
  have hbz : isZeroVal (some (Value.num b)) = false := by simp [isZeroVal, hb]
  have hq : qdiv a b = a / b := qdiv_eq a b
  cases hl : nsLookup s.ns r with
  | none =>
      simp [com_calc, hop, h1, h2, hbz, hr, pyArith, hl, varSet, setOK, hq,
        nsLookup_nsUpdate_self]
  | some v =>
      have hv := hkind v hl
      simp [com_calc, hop, h1, h2, hbz, hr, pyArith, hl, varSet, setOK, hq,
        nsLookup_nsUpdate_self, hv]

/-- Witness for `C1_calc_div_writes_result_and_ams`:
`calc div 6 3 r` on the fresh state stores `2` in `r` and in `@AMS`. -/
theorem C1_calc_div_witness :
    nsLookup (step initState ("calc", ["div", "6", "3", "r"])).ns "r" =
      some ⟨VKind.numeric, some (Value.num ((6 : ℚ) / 3))⟩ ∧
    (step initState ("calc", ["div", "6", "3", "r"])).ams =
      Value.num ((6 : ℚ) / 3) ∧
    (step initState ("calc", ["div", "6", "3", "r"])).status = initState.status ∧
    (step initState ("calc", ["div", "6", "3", "r"])).errors = initState.errors :=
  C1_calc_div_writes_result_and_ams initState "6" "3" "r" 6 3
    (by decide) (by decide) (by decide) (by decide) (by decide)
    (fun v hv => by simp [initState, nsLookup] at hv)

/-- Claim C2: `calc div a 0 r` on any resolvable operand token `a` and any
result name `r` reports `MathException`, and `calc power 0 0 r` reports
`MathException` (0^0 rejected); in both cases the run status becomes
`Error` and no result is computed — namespace and AccumulatedResult are
untouched. -/
theorem C2_div_by_zero_and_zero_power_zero (s : RState) (t1 r : String)
    (v1 : OpVal) (hifs : s.ifs = 0)
    (h1 : resolveOperand s t1 = some v1) :
    step s ("calc", ["div", t1, "0", r]) = reportError s "MathException" ∧
    step s ("calc", ["power", "0", "0", r]) = reportError s "MathException" ∧
    (reportError s "MathException").status = RStatus.error ∧
    (reportError s "MathException").ns = s.ns ∧
    (reportError s "MathException").ams = s.ams := by
  have hz : resolveOperand s "0" = some (some (Value.num 0)) :=
    resolveOperand_lit s "0" 0 (by decide) (by decide)
  refine ⟨?_, ?_, by simp [reportError], by simp [reportError], by simp [reportError]⟩
  · rw [step_calc4 s hifs]
    have hop : opOfString "div" = some OpKind.div := by decide
    simp [com_calc, hop, h1, hz, isZeroVal]
  · rw [step_calc4 s hifs]
    have hop : opOfString "power" = some OpKind.power := by decide
    simp [com_calc, hop, hz, isZeroVal]

/-- Witness for `C2_div_by_zero_and_zero_power_zero` with operand token
`7` on the fresh state. -/
theorem C2_div_by_zero_witness :
    step initState ("calc", ["div", "7", "0", "r"]) =
      reportError initState "MathException" ∧
    step initState ("calc", ["power", "0", "0", "r"]) =
      reportError initState "MathException" ∧
    (reportError initState "MathException").status = RStatus.error ∧
    (reportError initState "MathException").ns = initState.ns ∧
    (reportError initState "MathException").ams = initState.ams :=
  C2_div_by_zero_and_zero_power_zero initState "7" "r" (some (Value.num 7))
    (by decide) (by decide)

/-! ### Claim C3: the conditional-skip state machine -/

/-- Claim C3: starting in Executing, `if 1 < 0` (false) opens a skipped
block (depth 1), the nested `if 1 > 0` inside the skipped region raises
the depth to 2, and the two `endif` lines bring it back through 1 to 0 —
the dispatcher is Executing exactly after the second `endif` and never
earlier, with no diagnostic and no other state change; in general, while
`SkipDepth > 0` an `if` raises the depth from `d` to `d + 1`, `endif`
decrements it with floor 0 (and executes even while skipping), and every
other mnemonic is consumed without executing. -/
theorem C3_skip_depth_correctness :
    ((step initState ("if", ["1", "<", "0"])).ifs = 1 ∧
      (step (step initState ("if", ["1", "<", "0"]))
        ("if", ["1", ">", "0"])).ifs = 2 ∧
      (step (step (step initState ("if", ["1", "<", "0"]))
        ("if", ["1", ">", "0"])) ("endif", [])).ifs = 1 ∧
      (step (step (step (step initState ("if", ["1", "<", "0"]))
        ("if", ["1", ">", "0"])) ("endif", [])) ("endif", [])) =
        { initState with ifs := 0 }) ∧
    (∀ s : RState, ∀ com : String, ∀ args : List String,
      s.ifs ≠ 0 → lowerStr com = "if" →
        step s (com, args) = { s with ifs := s.ifs + 1 }) ∧
    (∀ s : RState, ∀ com : String, lowerStr com = "endif" →
        step s (com, []) = { s with ifs := s.ifs - 1 }) ∧
    (∀ s : RState, ∀ com : String, ∀ args : List String,
      s.ifs ≠ 0 → lowerStr com ≠ "endif" → lowerStr com ≠ "if" →
        step s (com, args) = s) := by
  refine ⟨by decide, ?_, ?_, ?_⟩
  · intro s com args hifs hcom
    exact step_skip_if s com args hifs hcom
  · intro s com hcom
    exact step_endif_noargs s com hcom
  · intro s com args hifs h1 h2
    exact step_skip_other s com args hifs h1 h2

/-- Witness for the general clauses of `C3_skip_depth_correctness` at a
state of depth 5. -/
theorem C3_skip_depth_witness :
    step { initState with ifs := 5 } ("set", ["numeric", "x", "1"]) =
      { initState with ifs := 5 } :=
  C3_skip_depth_correctness.2.2.2 { initState with ifs := 5 } "set"
    ["numeric", "x", "1"] (by decide) (by decide) (by decide)

/-! ### Claim C5: the numeric type guard of arithmetic -/

/-- Claim C5 is falsified on the `calc` path: with `x` and `y` declared as
`cstring` variables, `calc add x y r` reports `ValueException` (from the
write-back into the freshly created Numeric result variable), not the
promised `TypeException`, and it does write a result — the string
concatenation `ab` is stored in the AccumulatedResult register.
`com_calc` never routes through the guarded `Operation` helpers. -/
theorem C5_counterexample :
    (runLoop initState [("set", ["cstring", "x", "a"]),
        ("set", ["cstring", "y", "b"]),
        ("calc", ["add", "x", "y", "r"])]).errors = ["ValueException"] ∧
    "TypeException" ∉ (runLoop initState [("set", ["cstring", "x", "a"]),
        ("set", ["cstring", "y", "b"]),
        ("calc", ["add", "x", "y", "r"])]).errors ∧
    (runLoop initState [("set", ["cstring", "x", "a"]),
        ("set", ["cstring", "y", "b"]),
        ("calc", ["add", "x", "y", "r"])]).ams = Value.str "ab" := by
  decide

/-- Claim C5 (amended): only the `Operation` helpers enforce the numeric
type guard — for every operation among `add, sub, mul, div, power`, a
non-Numeric operand makes the helper report `TypeException` and return no
result.  `com_calc` does not call these helpers and performs no operand
kind check: on two string-valued operands, `calc add` concatenates the
raw values, stores the concatenation in AccumulatedResult, and fails only
at write-back with `ValueException`, leaving the freshly created result
variable undefined. -/
theorem C5_type_guard_helpers_only :
    (∀ op : OpKind, ∀ s : RState, ∀ v1 v2 : SVariable,
      v1.type ≠ VKind.numeric ∨ v2.type ≠ VKind.numeric →
        opHelper op s v1 v2 = (reportError s "TypeException", Except.ok none)) ∧
    (∀ s : RState, ∀ t1 t2 r : String, ∀ x y : String,
      s.ifs = 0 →
      resolveOperand s t1 = some (some (Value.str x)) →
      resolveOperand s t2 = some (some (Value.str y)) →
      requireIdentifier r = true →
      nsLookup s.ns r = none →
        (step s ("calc", ["add", t1, t2, r])).ams = Value.str (x ++ y) ∧
        (step s ("calc", ["add", t1, t2, r])).errors =
          s.errors ++ ["ValueException"] ∧
        nsLookup (step s ("calc", ["add", t1, t2, r])).ns r =
          some ⟨VKind.numeric, none⟩) := by
  constructor
  · intro op s v1 v2 h
    rcases h with h | h
    · simp [opHelper, h]
    · by_cases h1 : v1.type = VKind.numeric
      · simp [opHelper, h1, h]
      · simp [opHelper, h1]
  · intro s t1 t2 r x y hifs h1 h2 hr hl
    rw [step_calc4 s hifs]
    have hop : opOfString "add" = some OpKind.add := by decide
    simp [com_calc, hop, h1, h2, hr, isZeroVal, pyArith, hl, varSet, setOK,
      reportError, nsLookup_nsUpdate_self]

/-- Witness for `C5_type_guard_helpers_only`: the `add` helper on a
cstring and a numeric variable reports `TypeException`, and `calc add` on
two cstring variables concatenates into `@AMS`. -/
theorem C5_type_guard_witness :
    opHelper OpKind.add initState
        ⟨VKind.stringConst, some (Value.str "a")⟩
        ⟨VKind.numeric, some (Value.num 1)⟩ =
      (reportError initState "TypeException", Except.ok none) :=
  C5_type_guard_helpers_only.1 OpKind.add initState
    ⟨VKind.stringConst, some (Value.str "a")⟩
    ⟨VKind.numeric, some (Value.num 1)⟩ (Or.inl (by decide))

/-! ### Claim C6: non-fatal header precheck -/

/-- Claim C6 is falsified on the run-attempt clause: with the header
`SETA-SOC 99.0` (version too high) the constructor reports exactly one
`PrecheckException`, but that diagnostic sets the run status to `Error`,
so `run()` exits at its very first status check — the following
`set numeric x 5` never executes and `x` stays unbound, contradicting
"subsequent instructions still execute". -/
theorem C6_counterexample :
    runProgram ["SETA-SOC 99.0\n", "set numeric x 5\n"] =
      reportError initState "PrecheckException" ∧
    nsLookup (runProgram ["SETA-SOC 99.0\n", "set numeric x 5\n"]).ns "x" =
      none := by
  decide

/-- Claim C6 (amended): for every source whose header line fails
validation, exactly one `PrecheckException` diagnostic is reported at
stream construction, the stream is still constructed (its line buffer and
pointer are intact, so it remains readable), and the run is still
attempted — but since the diagnostic set the run status to `Error`, the
dispatch loop exits at its first status check and no subsequent
instruction executes: the final state is exactly the constructed one. -/
theorem C6_precheck_reports_once_and_halts_run (text : List String)
    (h : (precheck text).1 ≠ 0) :
    (mkSOC text initState).2.errors = ["PrecheckException"] ∧
    (mkSOC text initState).2.status = RStatus.error ∧
    (mkSOC text initState).1 = { text := text, pointer := (precheck text).2 } ∧
    runProgram text = reportError initState "PrecheckException" := by
  have h4 : runProgram text = reportError initState "PrecheckException" := by
    unfold runProgram
    simp only [h, if_true, ne_eq, not_false_iff, ite_true]
    cases instrsFrom (text.drop (precheck text).2) with
    | nil => simp [runLoop, reportError]
    | cons i rest => simp [runLoop, reportError]
  exact ⟨by simp [mkSOC, h, reportError, initState], by simp [mkSOC, h, reportError],
    by simp [mkSOC], h4⟩

/-- Witness for `C6_precheck_reports_once_and_halts_run` on the version-
too-high header. -/
theorem C6_precheck_witness :
    (mkSOC ["SETA-SOC 99.0\n", "emp\n"] initState).2.errors =
      ["PrecheckException"] ∧
    (mkSOC ["SETA-SOC 99.0\n", "emp\n"] initState).2.status = RStatus.error ∧
    (mkSOC ["SETA-SOC 99.0\n", "emp\n"] initState).1 =
      { text := ["SETA-SOC 99.0\n", "emp\n"],
        pointer := (precheck ["SETA-SOC 99.0\n", "emp\n"]).2 } ∧
    runProgram ["SETA-SOC 99.0\n", "emp\n"] =
      reportError initState "PrecheckException" :=
  C6_precheck_reports_once_and_halts_run ["SETA-SOC 99.0\n", "emp\n"] (by decide)

end Seta
